import Mathlib

/-!
Shallow embedding of the network_switcher repository (Rust) in Lean 4.

The embedding covers the configuration data model and matching engine
(src/config/mod.rs), the auto-apply controller state machine
(src/gui/mod.rs), the applier (src/network/mod.rs apply_config), and the
persistence layer (AppConfig::load / AppConfig::save).  External effects
(process execution, the filesystem, the JSON text layer of serde_json) are
modelled as explicit oracle parameters; machine state mutated through
`&mut self` in Rust is threaded explicitly.
-/

namespace NetworkSwitcher

/-- Embeds `ConfigType` (src/config/mod.rs): Wifi-triggered or
service-triggered configuration. -/
inductive ConfigType where
  | Wifi
  | Service
deriving DecidableEq

/-- Embeds `NetworkConfig` (src/config/mod.rs).  Rust `Option<String>`
becomes `Option String`, `Vec<String>` becomes `List String`. -/
structure NetworkConfig where
  name : String
  ssid : String
  config_type : ConfigType
  router_mac : Option String
  auto_apply : Bool
  target_service : Option String
  use_dhcp : Bool
  ip_address : Option String
  subnet_mask : Option String
  router : Option String
  dns_servers : List String
deriving DecidableEq

/-- Embeds `NetworkConfig::config_key`: the unique key is the name. -/
def NetworkConfig.config_key (c : NetworkConfig) : String :=
  c.name

/-- Embeds `NetworkConfig::matches_network` (src/config/mod.rs lines
132-154): empty configured ssid is a wildcard; otherwise the ssid must be
equal; a configured router MAC must then equal the probed MAC (plain
string equality in the source), and an absent probed MAC fails closed. -/
def NetworkConfig.matches_network (c : NetworkConfig) (ssid : String)
    (router_mac : Option String) : Bool :=
  if c.ssid = "" then
    true
  else if c.ssid ≠ ssid then
    false
  else
    match c.router_mac, router_mac with
    | some config_mac, some current_mac => config_mac == current_mac
    | some _, none => false
    | none, _ => true

/-- Embeds `AppConfig` (src/config/mod.rs).  The Rust
`HashMap<String, NetworkConfig>` is modelled as an association list in a
fixed iteration order: the source iterates `self.configs.values()` twice
within one call of `find_auto_apply_config`, and one `HashMap` iterates
in the same (unspecified but stable) order both times, which the list
captures. -/
structure AppConfig where
  configs : List (String × NetworkConfig)
  auto_switch : Bool
  network_service : String
deriving DecidableEq

/-- Embeds `AppConfig::find_auto_apply_config` (src/config/mod.rs lines
88-105): pass 1 returns the first auto-apply config whose
`matches_network` holds; pass 2 (legacy fallback) returns the first
auto-apply config whose ssid equals the probed ssid and whose
`router_mac` is absent. -/
def AppConfig.find_auto_apply_config (a : AppConfig) (ssid : String)
    (router_mac : Option String) : Option NetworkConfig :=
  match a.configs.find? (fun p => p.2.auto_apply && p.2.matches_network ssid router_mac) with
  | some p => some p.2
  | none =>
    match a.configs.find? (fun p => p.2.auto_apply && p.2.ssid == ssid && p.2.router_mac.isNone) with
    | some p => some p.2
    | none => none

/-- Single-pass reference function, written from the words of claim C5
(the spec side of the refinement): return the first auto-apply config for
which `matches_network` holds. -/
def AppConfig.find_auto_apply_config_single (a : AppConfig) (ssid : String)
    (router_mac : Option String) : Option NetworkConfig :=
  (a.configs.find? (fun p => p.2.auto_apply && p.2.matches_network ssid router_mac)).map (·.2)

/-- The fields of `NetworkSwitcherApp` (src/gui/mod.rs) that the
auto-apply decision reads and writes: the loaded store, the last observed
identity, and the `last_applied_key` suppression token. -/
structure AppState where
  config : AppConfig
  current_ssid : Option String
  current_router_mac : Option String
  last_applied_key : Option String
deriving DecidableEq

/-- The shared background snapshot `NetworkState` (src/gui/mod.rs) as the
controller reads it under the lock: identity fields plus the loading
flag.  The `config` field it also carries does not influence the
auto-apply decision and is omitted. -/
structure BgState where
  ssid : Option String
  router_mac : Option String
  is_loading : Bool
deriving DecidableEq

/-- Outcome of one auto-apply decision step: the updated application
state, how many times `network::apply_config` (the Applier) was invoked,
and whether a background refresh was requested
(`refresh_in_background` inside `apply_config_internal`). -/
structure StepOut where
  state : AppState
  applier_calls : Nat
  refresh_requested : Bool
deriving DecidableEq

/-- Embeds `NetworkSwitcherApp::apply_config_internal` (src/gui/mod.rs):
invoke the Applier once; on success record the config key in
`last_applied_key` and request a refresh; on failure only a status
message changes.  The Applier outcome is the oracle `applyOk`. -/
def apply_config_internal (applyOk : NetworkConfig → Bool) (s : AppState)
    (cfg : NetworkConfig) : StepOut :=
  if applyOk cfg then
    ⟨{ s with last_applied_key := some cfg.config_key }, 1, true⟩
  else
    ⟨s, 1, false⟩

/-- Embeds `NetworkSwitcherApp::try_auto_apply` (src/gui/mod.rs lines
194-218): return early when auto-switch is off or the ssid is unknown;
otherwise look up a match, skip when its key equals `last_applied_key`,
apply when it differs, and clear `last_applied_key` when no match
exists. -/
def try_auto_apply (applyOk : NetworkConfig → Bool) (s : AppState) : StepOut :=
  if !s.config.auto_switch then
    ⟨s, 0, false⟩
  else
    match s.current_ssid with
    | none => ⟨s, 0, false⟩
    | some ssid =>
      match s.config.find_auto_apply_config ssid s.current_router_mac with
      | some cfg =>
        if s.last_applied_key == some cfg.config_key then
          ⟨s, 0, false⟩
        else
          apply_config_internal applyOk s cfg
      | none =>
        ⟨{ s with last_applied_key := none }, 0, false⟩

/-- Embeds `NetworkSwitcherApp::check_bg_state` (src/gui/mod.rs): when a
refresh is in flight and the snapshot is no longer loading, compare the
snapshot identity against the current one, copy it in, and drop the
`is_refreshing` flag; returns (new state, new is_refreshing flag,
network_changed). -/
def check_bg_state (bg : BgState) (s : AppState) (is_refreshing : Bool) :
    AppState × Bool × Bool :=
  if !bg.is_loading && is_refreshing then
    ({ s with current_ssid := bg.ssid, current_router_mac := bg.router_mac },
     false,
     (s.current_ssid != bg.ssid) || (s.current_router_mac != bg.router_mac))
  else
    (s, is_refreshing, false)

/-- Outcome of one controller tick: updated state, the `is_refreshing`
flag after the tick, and the number of Applier invocations. -/
structure TickOut where
  state : AppState
  refreshing : Bool
  applier_calls : Nat
deriving DecidableEq

/-- Embeds `NetworkSwitcherApp::check_and_auto_apply` (src/gui/mod.rs
lines 244-265): consume the background snapshot; when the identity
changed, run the auto-apply decision; then, when the 5-second cadence
window elapsed (input `cadence`), issue `refresh_in_background`, which
leaves an already-set `is_refreshing` flag set and otherwise sets it. -/
def check_and_auto_apply (applyOk : NetworkConfig → Bool) (cadence : Bool)
    (bg : BgState) (s : AppState) (is_refreshing : Bool) : TickOut :=
  let c := check_bg_state bg s is_refreshing
  let out := if c.2.2 then try_auto_apply applyOk c.1 else ⟨c.1, 0, false⟩
  ⟨out.state, (c.2.1 || out.refresh_requested) || cadence, out.applier_calls⟩

/-- An external command invocation: program name and argument list, as
passed to `run_command` (src/network/mod.rs). -/
structure Cmd where
  program : String
  args : List String
deriving DecidableEq

/-- The first actuator call of `apply_config` (src/network/mod.rs lines
344-355): `-setdhcp` when `use_dhcp`, else `-setmanual` with the
documented defaults substituted for absent static fields. -/
def dhcpOrStaticCmd (service : String) (c : NetworkConfig) : Cmd :=
  if c.use_dhcp then
    ⟨"networksetup", ["-setdhcp", service]⟩
  else
    ⟨"networksetup",
      ["-setmanual", service,
        c.ip_address.getD "192.168.1.100",
        c.subnet_mask.getD "255.255.255.0",
        c.router.getD "192.168.1.1"]⟩

/-- The second actuator call of `apply_config` (src/network/mod.rs lines
357-366): `-setdnsservers` with the sentinel `"Empty"` when the DNS list
is empty, otherwise the list in order. -/
def dnsCmd (service : String) (c : NetworkConfig) : Cmd :=
  if c.dns_servers.isEmpty then
    ⟨"networksetup", ["-setdnsservers", service, "Empty"]⟩
  else
    ⟨"networksetup", "-setdnsservers" :: service :: c.dns_servers⟩

/-- Embeds `apply_config` (src/network/mod.rs lines 344-369).  The
execution of an external command (`run_command`) is the oracle `exec`;
the function returns the Rust result together with the trace of commands
actually issued, in order.  The `?` operator aborts at the first failing
command. -/
def apply_config (exec : Cmd → Except String Unit) (service : String)
    (c : NetworkConfig) : Except String Unit × List Cmd :=
  let first := dhcpOrStaticCmd service c
  match exec first with
  | .error e => (.error e, [first])
  | .ok _ =>
    let dns := dnsCmd service c
    match exec dns with
    | .error e => (.error e, [first, dns])
    | .ok _ => (.ok (), [first, dns])

/-- JSON documents as produced and consumed by the persistence layer.
The configuration document contains only null, booleans, strings, arrays
and objects (no numeric field exists in the data model), so numbers are
not needed. -/
inductive Json where
  | null
  | bool (b : Bool)
  | str (s : String)
  | arr (elems : List Json)
  | obj (fields : List (String × Json))

/-- Field lookup in a JSON object, as serde resolves field names. -/
def Json.getField (fields : List (String × Json)) (name : String) : Option Json :=
  (fields.find? (fun p => p.1 == name)).map (·.2)

/-- Serde serialization of `Option<String>`: `None` becomes null. -/
def encodeOptStr : Option String → Json
  | none => .null
  | some s => .str s

/-- Serde deserialization of `Option<String>`. -/
def decodeOptStr : Json → Except String (Option String)
  | .null => .ok none
  | .str s => .ok (some s)
  | _ => .error "invalid type for optional string"

/-- Serde deserialization of `String`. -/
def decodeStr : Json → Except String String
  | .str s => .ok s
  | _ => .error "invalid type for string"

/-- Serde deserialization of `bool`. -/
def decodeBool : Json → Except String Bool
  | .bool b => .ok b
  | _ => .error "invalid type for bool"

/-- Serde serialization of the unit-variant enum `ConfigType`. -/
def encodeConfigType : ConfigType → Json
  | .Wifi => .str "Wifi"
  | .Service => .str "Service"

/-- Serde deserialization of `ConfigType`. -/
def decodeConfigType : Json → Except String ConfigType
  | .str "Wifi" => .ok .Wifi
  | .str "Service" => .ok .Service
  | _ => .error "unknown variant for ConfigType"

/-- Serde deserialization of `Vec<String>` element lists. -/
def decodeStrList : List Json → Except String (List String)
  | [] => .ok []
  | j :: rest => do
    let s ← decodeStr j
    let r ← decodeStrList rest
    pure (s :: r)

/-- A required serde field: missing is an error (`name`, `use_dhcp`,
`dns_servers` carry no `#[serde(default)]` and are not `Option`). -/
def reqField {α : Type} (dec : Json → Except String α)
    (fields : List (String × Json)) (name : String) : Except String α :=
  match Json.getField fields name with
  | some j => dec j
  | none => .error ("missing field " ++ name)

/-- A serde field with a default: `#[serde(default)]` fields (`ssid`,
`config_type`, `router_mac`, `auto_apply`) fall back to the default when
missing, and serde also treats a missing plain `Option` field as
`None`. -/
def defField {α : Type} (dec : Json → Except String α) (d : α)
    (fields : List (String × Json)) (name : String) : Except String α :=
  match Json.getField fields name with
  | some j => dec j
  | none => .ok d

/-- Serde serialization of `NetworkConfig`: every field is written, in
declaration order. -/
def encodeNetworkConfig (c : NetworkConfig) : Json :=
  .obj
    [("name", .str c.name),
     ("ssid", .str c.ssid),
     ("config_type", encodeConfigType c.config_type),
     ("router_mac", encodeOptStr c.router_mac),
     ("auto_apply", .bool c.auto_apply),
     ("target_service", encodeOptStr c.target_service),
     ("use_dhcp", .bool c.use_dhcp),
     ("ip_address", encodeOptStr c.ip_address),
     ("subnet_mask", encodeOptStr c.subnet_mask),
     ("router", encodeOptStr c.router),
     ("dns_servers", .arr (c.dns_servers.map .str))]

/-- Serde deserialization of `NetworkConfig`, honouring the
`#[serde(default)]` attributes of src/config/mod.rs. -/
def decodeNetworkConfig : Json → Except String NetworkConfig
  | .obj fields => do
    let name ← reqField decodeStr fields "name"
    let ssid ← defField decodeStr "" fields "ssid"
    let config_type ← defField decodeConfigType .Wifi fields "config_type"
    let router_mac ← defField decodeOptStr none fields "router_mac"
    let auto_apply ← defField decodeBool false fields "auto_apply"
    let target_service ← defField decodeOptStr none fields "target_service"
    let use_dhcp ← reqField decodeBool fields "use_dhcp"
    let ip_address ← defField decodeOptStr none fields "ip_address"
    let subnet_mask ← defField decodeOptStr none fields "subnet_mask"
    let router ← defField decodeOptStr none fields "router"
    let dns_servers ←
      match Json.getField fields "dns_servers" with
      | some (.arr elems) => decodeStrList elems
      | some _ => .error "invalid type for dns_servers"
      | none => .error "missing field dns_servers"
    pure ⟨name, ssid, config_type, router_mac, auto_apply, target_service,
          use_dhcp, ip_address, subnet_mask, router, dns_servers⟩
  | _ => .error "expected object for NetworkConfig"

/-- Serde serialization of the `HashMap<String, NetworkConfig>` as a JSON
object, one member per entry in iteration order. -/
def encodeConfigMap (l : List (String × NetworkConfig)) : Json :=
  .obj (l.map (fun p => (p.1, encodeNetworkConfig p.2)))

/-- Serde deserialization of the config map members. -/
def decodeConfigMap : List (String × Json) →
    Except String (List (String × NetworkConfig))
  | [] => .ok []
  | (k, j) :: rest => do
    let c ← decodeNetworkConfig j
    let r ← decodeConfigMap rest
    pure ((k, c) :: r)

/-- Serde serialization of `AppConfig`: the document written by
`AppConfig::save` (src/config/mod.rs lines 68-75), before the external
serde_json text printer. -/
def encodeAppConfig (a : AppConfig) : Json :=
  .obj
    [("configs", encodeConfigMap a.configs),
     ("auto_switch", .bool a.auto_switch),
     ("network_service", .str a.network_service)]

/-- Serde deserialization of `AppConfig`: all three fields are required
(none carries `#[serde(default)]`). -/
def decodeAppConfig : Json → Except String AppConfig
  | .obj fields => do
    let configs ←
      match Json.getField fields "configs" with
      | some (.obj members) => decodeConfigMap members
      | some _ => .error "invalid type for configs"
      | none => .error "missing field configs"
    let auto_switch ← reqField decodeBool fields "auto_switch"
    let network_service ← reqField decodeStr fields "network_service"
    pure ⟨configs, auto_switch, network_service⟩
  | _ => .error "expected object for AppConfig"

/-- The Rust `AppConfig::default()` (derived `Default`): empty map, false
flag, empty string. -/
def defaultAppConfig : AppConfig :=
  ⟨[], false, ""⟩

/-- Embeds `AppConfig::save` at the document level: the JSON document
handed to the external serde_json printer and written to disk. -/
def AppConfig.saveDoc (a : AppConfig) : Json :=
  encodeAppConfig a

/-- Embeds `AppConfig::load` (src/config/mod.rs lines 56-66).
`fileExists` models `path.exists()`, `readResult` models
`fs::read_to_string`, and `parse` models the text-to-JSON layer of
`serde_json::from_str`, whose typed layer is `decodeAppConfig`; every
failure path falls back to the derived default (`unwrap_or_default` /
`Self::default()`). -/
def AppConfig.loadFrom (fileExists : Bool) (readResult : Except String String)
    (parse : String → Except String Json) : AppConfig :=
  if fileExists then
    match readResult with
    | .ok content =>
      match parse content >>= decodeAppConfig with
      | .ok a => a
      | .error _ => defaultAppConfig
    | .error _ => defaultAppConfig
  else
    defaultAppConfig

/-- Concrete config of Scenario A of the spec: MAC-bound, auto-apply,
with the stored MAC in lower case as the probe normalizes it. -/
def cfgHome : NetworkConfig :=
  ⟨"Home", "HomeNet", .Wifi, some "aa:bb:cc:dd:ee:ff", true, some "Wi-Fi", true,
    none, none, none, []⟩

/-- Concrete legacy config of Scenario C: SSID-only, no MAC binding. -/
def cfgOffice : NetworkConfig :=
  ⟨"Office", "OfficeNet", .Wifi, none, true, some "Wi-Fi", true,
    none, none, none, ["8.8.8.8"]⟩

/-- Concrete wildcard config: empty ssid while still carrying a
router-MAC constraint. -/
def cfgWildcard : NetworkConfig :=
  ⟨"Any", "", .Wifi, some "11:22:33:44:55:66", true, none, true,
    none, none, none, []⟩

/-- Concrete config of Scenario D: static mode with every static field
absent and an empty DNS list. -/
def cfgStaticD : NetworkConfig :=
  ⟨"Lab", "LabNet", .Wifi, none, true, some "Wi-Fi", false,
    none, none, none, []⟩

/-- Concrete static config with all static fields populated. -/
def cfgStaticFull : NetworkConfig :=
  ⟨"Lab2", "LabNet2", .Service, some "11:22:33:44:55:66", false, some "Ethernet",
    false, some "10.0.0.5", some "255.255.255.0", some "10.0.0.1",
    ["1.1.1.1", "9.9.9.9"]⟩

/-- A store holding only the Scenario A config, auto-switch enabled. -/
def storeHome : AppConfig :=
  ⟨[("Home", cfgHome)], true, "Wi-Fi"⟩

/-- A store exercising the round-trip claim: one config with an empty DNS
list, one with no router MAC, one static with all fields populated. -/
def storeRound : AppConfig :=
  ⟨[("Home", cfgHome), ("Office", cfgOffice), ("Lab2", cfgStaticFull)], true, "Wi-Fi"⟩

/-- Controller state with an unknown current SSID and a stale
`last_applied_key`. -/
def stateUnknownSsid : AppState :=
  ⟨storeHome, none, none, some "Home"⟩

/-- Controller state on a known SSID that matches no stored config. -/
def stateNoMatch : AppState :=
  ⟨storeHome, some "OtherNet", none, some "Home"⟩

/-- Controller state before any identity has been observed. -/
def stateFresh : AppState :=
  ⟨storeHome, none, none, none⟩

/-- Background snapshot reporting the Scenario A identity, probe
finished. -/
def bgHome : BgState :=
  ⟨some "HomeNet", some "aa:bb:cc:dd:ee:ff", false⟩

/-- Command oracle on which every external command succeeds. -/
def execOk : Cmd → Except String Unit :=
  fun _ => .ok ()

/-- Command oracle on which exactly the DNS step fails. -/
def execFailDns : Cmd → Except String Unit :=
  fun cmd =>
    if cmd.args.head? = some "-setdnsservers" then .error "dns failed" else .ok ()

/-- A text printer oracle for the persistence witness. -/
def printDocW : Json → String :=
  fun _ => "doc"

/-- A text parser oracle returning the round-trip document. -/
def parseOkW : String → Except String Json :=
  fun _ => .ok storeRound.saveDoc

/-- A text parser oracle on which parsing always fails. -/
def parseFailW : String → Except String Json :=
  fun _ => .error "bad json"

/-! Helper lemmas shared by the claim theorems. -/

/-- A config whose ssid equals the probed ssid and whose router MAC is
absent matches any probed MAC (rules 1 and 4 of the matching policy). -/
theorem matches_network_of_ssid_eq_of_mac_none (c : NetworkConfig) (ssid : String)
    (mac : Option String) (h1 : c.ssid = ssid) (h2 : c.router_mac = none) :
    c.matches_network ssid mac = true := by
  unfold NetworkConfig.matches_network
  subst h1
  rw [h2]
  split
  · rfl
  · split
    · rename_i hne
      exact absurd rfl hne
    · rfl

/-- One auto-apply decision step invokes the Applier at most once. -/
theorem try_auto_apply_calls_le_one (f : NetworkConfig → Bool) (s : AppState) :
    (try_auto_apply f s).applier_calls ≤ 1 := by
  unfold try_auto_apply apply_config_internal
  repeat' split
  all_goals simp

/-- The auto-apply decision step never changes the observed identity. -/
theorem try_auto_apply_preserves_identity (f : NetworkConfig → Bool) (s : AppState) :
    (try_auto_apply f s).state.current_ssid = s.current_ssid ∧
      (try_auto_apply f s).state.current_router_mac = s.current_router_mac := by
  unfold try_auto_apply apply_config_internal
  repeat' split
  all_goals simp

/-- One controller tick invokes the Applier at most once. -/
theorem tick_calls_le_one (f : NetworkConfig → Bool) (cadence : Bool) (bg : BgState)
    (s : AppState) (r : Bool) :
    (check_and_auto_apply f cadence bg s r).applier_calls ≤ 1 := by
  unfold check_and_auto_apply check_bg_state
  split
  · dsimp only
    split
    · exact try_auto_apply_calls_le_one f _
    · simp
  · simp

/-- When a tick invoked the Applier at all, it consumed the snapshot
first, so the tick leaves the observed identity equal to the snapshot
identity. -/
theorem tick_applies_only_after_consume (f : NetworkConfig → Bool) (cadence : Bool)
    (bg : BgState) (s : AppState) (r : Bool)
    (h : (check_and_auto_apply f cadence bg s r).applier_calls ≠ 0) :
    (check_and_auto_apply f cadence bg s r).state.current_ssid = bg.ssid ∧
      (check_and_auto_apply f cadence bg s r).state.current_router_mac = bg.router_mac := by
  unfold check_and_auto_apply check_bg_state at *
  revert h
  split
  · dsimp only
    split
    · intro _
      constructor
      · exact (try_auto_apply_preserves_identity f _).1
      · exact (try_auto_apply_preserves_identity f _).2
    · intro hc
      exact absurd rfl hc
  · intro hc
    exact absurd rfl hc

/-- A tick whose snapshot identity equals the already observed identity
never invokes the Applier. -/
theorem tick_no_apply_on_unchanged (f : NetworkConfig → Bool) (cadence : Bool)
    (bg : BgState) (s : AppState) (r : Bool)
    (h1 : s.current_ssid = bg.ssid) (h2 : s.current_router_mac = bg.router_mac) :
    (check_and_auto_apply f cadence bg s r).applier_calls = 0 := by
  unfold check_and_auto_apply check_bg_state
  split
  · dsimp only
    rw [h1, h2]
    simp
  · rfl

/-- Decoding inverts encoding for optional string fields. -/
theorem decodeOptStr_encodeOptStr (o : Option String) :
    decodeOptStr (encodeOptStr o) = .ok o := by
  cases o <;> rfl

/-- Decoding inverts encoding for the config-type enum. -/
theorem decodeConfigType_encodeConfigType (t : ConfigType) :
    decodeConfigType (encodeConfigType t) = .ok t := by
  cases t <;> rfl

/-- Decoding inverts encoding for string lists. -/
theorem decodeStrList_map_str (l : List String) :
    decodeStrList (l.map Json.str) = .ok l := by
  induction l with
  | nil => rfl
  | cons a tl ih =>
    simp only [List.map_cons, decodeStrList, decodeStr, ih]
    rfl

/-- Decoding inverts encoding for a single `NetworkConfig`. -/
theorem decode_encode_config (c : NetworkConfig) :
    decodeNetworkConfig (encodeNetworkConfig c) = .ok c := by
  obtain ⟨nm, ss, ct, rm, aa, ts, dh, ip, sm, rt, dns⟩ := c
  cases ct <;> cases rm <;> cases ts <;> cases ip <;> cases sm <;> cases rt <;>
    · show Except.bind _ _ = _
      rw [show decodeStrList (dns.map Json.str) = .ok dns from decodeStrList_map_str dns]
      rfl

/-- Decoding inverts encoding for the whole config map. -/
theorem decode_encode_map (l : List (String × NetworkConfig)) :
    decodeConfigMap (l.map fun p => (p.1, encodeNetworkConfig p.2)) = .ok l := by
  induction l with
  | nil => rfl
  | cons p tl ih =>
    obtain ⟨k, c⟩ := p
    simp only [List.map_cons, decodeConfigMap, decode_encode_config, ih]
    rfl

/-- Decoding inverts encoding for `AppConfig` documents. -/
theorem decode_encode_app (a : AppConfig) :
    decodeAppConfig (encodeAppConfig a) = .ok a := by
  obtain ⟨cfgs, asw, ns⟩ := a
  show Except.bind _ _ = _
  rw [show decodeConfigMap (cfgs.map fun p => (p.1, encodeNetworkConfig p.2)) = .ok cfgs from
    decode_encode_map cfgs]
  rfl

/-! Claim theorems. -/

/-- Claim C1, counterexample: the claim asserts that a config storing
MAC "aa:bb:cc:dd:ee:ff" matches the probed MAC "AA:BB:CC:DD:EE:FF"
because the comparison is case-insensitive; the source compares the two
strings with plain equality, so this concrete instance yields false even
though the two MACs agree up to letter case. -/
theorem matches_network_mac_not_case_insensitive :
    cfgHome.router_mac = some "aa:bb:cc:dd:ee:ff" ∧
      "AA:BB:CC:DD:EE:FF".data.map Char.toLower =
        "aa:bb:cc:dd:ee:ff".data.map Char.toLower ∧
      cfgHome.matches_network "HomeNet" (some "AA:BB:CC:DD:EE:FF") = false := by
  refine ⟨rfl, by decide, by decide⟩

/-- Claim C1, amended: for a config with non-empty ssid and a stored
router MAC m, `matches_network` at the own ssid and a probed MAC m'
returns true iff m' equals m as an exact (case-sensitive) string; the
probe lowercases probed MACs, so equality holds in practice only when
the stored MAC is lower case too. -/
theorem matches_network_mac_exact (c : NetworkConfig) (m mp : String)
    (h1 : c.ssid ≠ "") (h2 : c.router_mac = some m) :
    (c.matches_network c.ssid (some mp) = true ↔ mp = m) := by
  unfold NetworkConfig.matches_network
  rw [if_neg h1, h2]
  split
  · rename_i hne
    exact absurd rfl hne
  · rw [beq_iff_eq]
    exact eq_comm

/-- Witness for the amended claim C1 at the Scenario A config and the
lower-case probed MAC. -/
theorem matches_network_mac_exact_witness :
    cfgHome.ssid ≠ "" ∧ cfgHome.router_mac = some "aa:bb:cc:dd:ee:ff" ∧
      (cfgHome.matches_network cfgHome.ssid (some "aa:bb:cc:dd:ee:ff") = true ↔
        "aa:bb:cc:dd:ee:ff" = "aa:bb:cc:dd:ee:ff") :=
  ⟨by decide, rfl,
    matches_network_mac_exact cfgHome "aa:bb:cc:dd:ee:ff" "aa:bb:cc:dd:ee:ff"
      (by decide) rfl⟩

/-- Claim C2: two consecutive controller ticks whose background
snapshots report the same identity invoke the Applier at most once in
total, for every starting state, Applier outcome and cadence. -/
theorem applier_at_most_once_two_ticks (f : NetworkConfig → Bool) (c1 c2 : Bool)
    (bg bg2 : BgState) (s : AppState) (r : Bool)
    (hs : bg2.ssid = bg.ssid) (hm : bg2.router_mac = bg.router_mac) :
    (check_and_auto_apply f c1 bg s r).applier_calls +
      (check_and_auto_apply f c2 bg2 (check_and_auto_apply f c1 bg s r).state
        (check_and_auto_apply f c1 bg s r).refreshing).applier_calls ≤ 1 := by
  by_cases h : (check_and_auto_apply f c1 bg s r).applier_calls = 0
  · rw [h, Nat.zero_add]
    exact tick_calls_le_one f c2 bg2 _ _
  · obtain ⟨hssid, hmac⟩ := tick_applies_only_after_consume f c1 bg s r h
    have h2 : (check_and_auto_apply f c2 bg2 (check_and_auto_apply f c1 bg s r).state
        (check_and_auto_apply f c1 bg s r).refreshing).applier_calls = 0 := by
      apply tick_no_apply_on_unchanged
      · rw [hssid, hs]
      · rw [hmac, hm]
    rw [h2, Nat.add_zero]
    exact tick_calls_le_one f c1 bg s r

/-- Witness for claim C2: a fresh state sees the Scenario A identity on
the first tick and the unchanged identity on the second. -/
theorem applier_at_most_once_two_ticks_witness :
    bgHome.ssid = bgHome.ssid ∧ bgHome.router_mac = bgHome.router_mac ∧
      (check_and_auto_apply (fun _ => true) false bgHome stateFresh true).applier_calls +
        (check_and_auto_apply (fun _ => true) false bgHome
          (check_and_auto_apply (fun _ => true) false bgHome stateFresh true).state
          (check_and_auto_apply (fun _ => true) false bgHome stateFresh true).refreshing).applier_calls ≤ 1 :=
  ⟨rfl, rfl,
    applier_at_most_once_two_ticks (fun _ => true) false false bgHome bgHome
      stateFresh true rfl rfl⟩

/-- Claim C3, counterexample: with auto-switch on, an unknown current
SSID and a stale `last_applied_key`, the decision step returns early and
leaves the token set, although the claim requires it to be cleared
whenever no match exists, expressly including the unknown-SSID case. -/
theorem last_applied_not_cleared_on_unknown_ssid :
    stateUnknownSsid.current_ssid = none ∧
      stateUnknownSsid.config.auto_switch = true ∧
      (try_auto_apply (fun _ => true) stateUnknownSsid).state.last_applied_key =
        some "Home" := by
  refine ⟨rfl, rfl, by decide⟩

/-- Claim C3, amended: when auto-switch is enabled, the current SSID is
known, and the match engine yields no config, the decision step clears
`last_applied_key`; when the SSID is unknown or auto-switch is off the
step returns early and leaves the token unchanged. -/
theorem try_auto_apply_clears_on_no_match (f : NetworkConfig → Bool) (s : AppState)
    (ssid : String) (h1 : s.config.auto_switch = true) (h2 : s.current_ssid = some ssid)
    (h3 : s.config.find_auto_apply_config ssid s.current_router_mac = none) :
    (try_auto_apply f s).state.last_applied_key = none := by
  unfold try_auto_apply
  rw [h1, h2]
  simp only [Bool.not_true]
  rw [if_neg (by simp), h3]

/-- Witness for the amended claim C3: a known SSID matched by no stored
config clears the stale token. -/
theorem try_auto_apply_clears_on_no_match_witness :
    stateNoMatch.config.auto_switch = true ∧
      stateNoMatch.current_ssid = some "OtherNet" ∧
      stateNoMatch.config.find_auto_apply_config "OtherNet"
        stateNoMatch.current_router_mac = none ∧
      (try_auto_apply (fun _ => true) stateNoMatch).state.last_applied_key = none :=
  ⟨rfl, rfl, by decide,
    try_auto_apply_clears_on_no_match (fun _ => true) stateNoMatch "OtherNet"
      rfl rfl (by decide)⟩

/-- Claim C4: a config with non-empty ssid and a stored router MAC never
matches when the probed MAC is absent, even at its own ssid
(fail-closed MAC binding). -/
theorem matches_network_fail_closed (c : NetworkConfig) (m : String)
    (h1 : c.ssid ≠ "") (h2 : c.router_mac = some m) :
    c.matches_network c.ssid none = false := by
  unfold NetworkConfig.matches_network
  rw [if_neg h1, h2]
  split
  · rename_i hne
    exact absurd rfl hne
  · rfl

/-- Witness for claim C4 at the Scenario B probe. -/
theorem matches_network_fail_closed_witness :
    cfgHome.ssid ≠ "" ∧ cfgHome.router_mac = some "aa:bb:cc:dd:ee:ff" ∧
      cfgHome.matches_network cfgHome.ssid none = false :=
  ⟨by decide, rfl,
    matches_network_fail_closed cfgHome "aa:bb:cc:dd:ee:ff" (by decide) rfl⟩

/-- Claim C5: the legacy second pass of `find_auto_apply_config` is
redundant; the two-pass function is extensionally equal to the
single-pass function returning the first auto-apply config whose
`matches_network` holds, for every store and probe. -/
theorem find_auto_apply_two_pass_redundant (a : AppConfig) (ssid : String)
    (mac : Option String) :
    a.find_auto_apply_config ssid mac = a.find_auto_apply_config_single ssid mac := by
  unfold AppConfig.find_auto_apply_config AppConfig.find_auto_apply_config_single
  cases h : a.configs.find? (fun p => p.2.auto_apply && p.2.matches_network ssid mac) with
  | some p => simp
  | none =>
    simp only [Option.map_none']
    cases h2 : a.configs.find?
        (fun p => p.2.auto_apply && p.2.ssid == ssid && p.2.router_mac.isNone) with
    | none => rfl
    | some q =>
      exfalso
      have hq := List.find?_some h2
      have hmem := List.mem_of_find?_eq_some h2
      have hnone := List.find?_eq_none.mp h q hmem
      simp only [Bool.and_eq_true, beq_iff_eq, Option.isNone_iff_eq_none] at hq
      obtain ⟨⟨hauto, hssid⟩, hmac⟩ := hq
      apply hnone
      simp only [Bool.and_eq_true]
      exact ⟨hauto, matches_network_of_ssid_eq_of_mac_none q.2 ssid mac hssid hmac⟩

/-- Claim C6: a config whose ssid field is empty matches every probed
ssid and MAC unconditionally, its own router-MAC constraint never being
examined. -/
theorem matches_network_wildcard (c : NetworkConfig) (ssid : String) (mac : Option String)
    (h : c.ssid = "") : c.matches_network ssid mac = true := by
  unfold NetworkConfig.matches_network
  rw [if_pos h]

/-- Witness for claim C6 at a wildcard config that carries a router-MAC
constraint, probed with a foreign ssid and no MAC. -/
theorem matches_network_wildcard_witness :
    cfgWildcard.ssid = "" ∧ cfgWildcard.router_mac = some "11:22:33:44:55:66" ∧
      cfgWildcard.matches_network "Whatever" none = true :=
  ⟨rfl, rfl, matches_network_wildcard cfgWildcard "Whatever" none rfl⟩

/-- Claim C7: in static mode, the first actuator call is the static-set
command with any absent field replaced by its documented default, and
when every external command succeeds the whole application succeeds, so
a missing static field never causes a failure. -/
theorem apply_config_static_defaults (exec : Cmd → Except String Unit) (service : String)
    (c : NetworkConfig) (h : c.use_dhcp = false) :
    (apply_config exec service c).2.head? =
      some ⟨"networksetup",
        ["-setmanual", service,
          c.ip_address.getD "192.168.1.100",
          c.subnet_mask.getD "255.255.255.0",
          c.router.getD "192.168.1.1"]⟩ ∧
    ((∀ cmd, exec cmd = .ok ()) → (apply_config exec service c).1 = .ok ()) := by
  constructor
  · unfold apply_config dhcpOrStaticCmd
    rw [h]
    simp only [Bool.false_eq_true, if_false]
    split <;> try rfl
    split <;> rfl
  · intro hall
    unfold apply_config
    dsimp only
    rw [hall, hall]

/-- Witness for claim C7 at the Scenario D config, whose ip address is
absent and is defaulted to 192.168.1.100. -/
theorem apply_config_static_defaults_witness :
    cfgStaticD.use_dhcp = false ∧
      ((apply_config execOk "Wi-Fi" cfgStaticD).2.head? =
        some ⟨"networksetup",
          ["-setmanual", "Wi-Fi",
            cfgStaticD.ip_address.getD "192.168.1.100",
            cfgStaticD.subnet_mask.getD "255.255.255.0",
            cfgStaticD.router.getD "192.168.1.1"]⟩ ∧
      ((∀ cmd, execOk cmd = .ok ()) → (apply_config execOk "Wi-Fi" cfgStaticD).1 = .ok ())) :=
  ⟨rfl, apply_config_static_defaults execOk "Wi-Fi" cfgStaticD rfl⟩

/-- Claim C8: the applier issues the DHCP-or-static call first and the
DNS call second, the DNS call carries the sentinel "Empty" exactly when
the DNS list is empty, a failing first call aborts before the DNS call
and returns its error, and a failing DNS call returns its error while
the already issued first call remains in the trace (no rollback). -/
theorem apply_config_sequencing (exec : Cmd → Except String Unit) (service : String)
    (c : NetworkConfig) :
    ((apply_config exec service c).2 = [dhcpOrStaticCmd service c] ∨
      (apply_config exec service c).2 = [dhcpOrStaticCmd service c, dnsCmd service c]) ∧
    (c.dns_servers = [] →
      dnsCmd service c = ⟨"networksetup", ["-setdnsservers", service, "Empty"]⟩) ∧
    (c.dns_servers ≠ [] →
      dnsCmd service c = ⟨"networksetup", "-setdnsservers" :: service :: c.dns_servers⟩) ∧
    (∀ e, exec (dhcpOrStaticCmd service c) = .error e →
      apply_config exec service c = (.error e, [dhcpOrStaticCmd service c])) ∧
    (∀ e, exec (dhcpOrStaticCmd service c) = .ok () → exec (dnsCmd service c) = .error e →
      apply_config exec service c = (.error e, [dhcpOrStaticCmd service c, dnsCmd service c])) := by
  refine ⟨?_, ?_, ?_, ?_, ?_⟩
  · unfold apply_config
    dsimp only
    split
    · left; rfl
    · split
      · right; rfl
      · right; rfl
  · intro h
    unfold dnsCmd
    rw [h]
    rfl
  · intro h
    unfold dnsCmd
    rw [if_neg (by simpa using h)]
  · intro e he
    unfold apply_config
    dsimp only
    rw [he]
  · intro e h1 h2
    unfold apply_config
    dsimp only
    rw [h1, h2]

/-- Witness for claim C8: on an oracle failing exactly at the DNS step,
the static call is issued and kept, the DNS sentinel is used for the
empty list, and the DNS error is returned. -/
theorem apply_config_sequencing_witness :
    execFailDns (dhcpOrStaticCmd "Wi-Fi" cfgStaticD) = .ok () ∧
      execFailDns (dnsCmd "Wi-Fi" cfgStaticD) = .error "dns failed" ∧
      dnsCmd "Wi-Fi" cfgStaticD = ⟨"networksetup", ["-setdnsservers", "Wi-Fi", "Empty"]⟩ ∧
      apply_config execFailDns "Wi-Fi" cfgStaticD =
        (.error "dns failed", [dhcpOrStaticCmd "Wi-Fi" cfgStaticD, dnsCmd "Wi-Fi" cfgStaticD]) :=
  ⟨rfl, rfl,
    (apply_config_sequencing execFailDns "Wi-Fi" cfgStaticD).2.1 rfl,
    (apply_config_sequencing execFailDns "Wi-Fi" cfgStaticD).2.2.2.2 "dns failed" rfl rfl⟩

/-- Claim C9: the document written by save decodes back to the very
store that was saved, for every store; the text layer of serde_json is
an external oracle assumed to invert its own printing. -/
theorem save_load_round_trip (a : AppConfig) (printDoc : Json → String)
    (parse : String → Except String Json)
    (hparse : parse (printDoc a.saveDoc) = .ok a.saveDoc) :
    AppConfig.loadFrom true (.ok (printDoc a.saveDoc)) parse = a := by
  unfold AppConfig.loadFrom
  rw [if_pos rfl]
  dsimp only
  rw [hparse]
  show (match (Except.ok a.saveDoc >>= decodeAppConfig : Except String AppConfig) with
    | .ok x => x | .error _ => defaultAppConfig) = a
  rw [show (Except.ok a.saveDoc >>= decodeAppConfig : Except String AppConfig) = .ok a from
    decode_encode_app a]

/-- Witness for claim C9 at a store holding a config with an empty DNS
list, a config without router MAC, and a fully populated static
config. -/
theorem save_load_round_trip_witness :
    parseOkW (printDocW storeRound.saveDoc) = .ok storeRound.saveDoc ∧
      AppConfig.loadFrom true (.ok (printDocW storeRound.saveDoc)) parseOkW = storeRound :=
  ⟨rfl, save_load_round_trip storeRound printDocW parseOkW rfl⟩

/-- Claim C10: load falls back to the derived default store (empty map,
auto-switch off, empty service) when the file is absent, when reading
fails, and when parsing or decoding fails; no failing path escapes. -/
theorem load_failure_defaults (fe : Bool) (rr : Except String String)
    (parse : String → Except String Json) :
    (fe = false → AppConfig.loadFrom fe rr parse = defaultAppConfig) ∧
    (∀ e, rr = .error e → AppConfig.loadFrom fe rr parse = defaultAppConfig) ∧
    (∀ s e, rr = .ok s → (parse s >>= decodeAppConfig) = .error e →
      AppConfig.loadFrom fe rr parse = defaultAppConfig) ∧
    defaultAppConfig = ⟨[], false, ""⟩ := by
  refine ⟨?_, ?_, ?_, rfl⟩
  · intro h
    unfold AppConfig.loadFrom
    rw [h]
    rfl
  · intro e h
    unfold AppConfig.loadFrom
    rw [h]
    cases fe <;> rfl
  · intro s e h1 h2
    unfold AppConfig.loadFrom
    rw [h1]
    cases fe
    · rfl
    · rw [if_pos rfl]
      dsimp only
      rw [h2]

/-- Witness for claim C10 at the three failure shapes: absent file, read
error, unparseable content. -/
theorem load_failure_defaults_witness :
    AppConfig.loadFrom false (.ok "x") parseFailW = defaultAppConfig ∧
      AppConfig.loadFrom true (.error "io error") parseFailW = defaultAppConfig ∧
      AppConfig.loadFrom true (.ok "garbage") parseFailW = defaultAppConfig :=
  ⟨(load_failure_defaults false (.ok "x") parseFailW).1 rfl,
    (load_failure_defaults true (.error "io error") parseFailW).2.1 "io error" rfl,
    (load_failure_defaults true (.ok "garbage") parseFailW).2.2.1 "garbage" "bad json" rfl rfl⟩

end NetworkSwitcher
